import Mathlib

/-
Verification development for the BuntzenLakeBot repository.

The JavaScript source (src/bot.js, src/scheduler.js, src/utils.js) drives a
headless browser; here the page and the outcomes of the individual browser
interactions are modelled as an explicit environment, and each bot operation
becomes a pure Lean function over that environment.  Element-handle clicks on
elements that are present in the static page model are modelled as succeeding;
every operation that the source wraps in try/catch-and-rethrow is modelled
with Except/Option error values.
-/

namespace BuntzenBot

/-- Typed failures corresponding to the errors thrown (or rethrown) by the
source: browser launch failure, navigation failure, "No pass cards found",
"Element not visible: sel" from utils.waitForElementVisible, a failed click
from utils.clickElement, "Pass is sold out for the selected date",
"Login form not found after adding to cart", login failures,
"Could not submit OTP", "No suitable vehicle found for selection",
"Smart-select link not found" and "Post-login page not loaded properly". -/
inductive BotError where
  | initFailed
  | navFailed
  | noPassCards
  | elementNotVisible (selector : String)
  | clickFail (selector : String) (cause : String)
  | soldOut
  | loginFormNotFound
  | loginFailed (msg : String)
  | couldNotSubmitOTP
  | noSuitableVehicle
  | smartSelectLinkNotFound
  | postLoginPageNotLoaded
deriving DecidableEq, Repr

/-- Boolean substring test on character lists: does the haystack contain the
pattern as a contiguous infix?  Mirrors JavaScript String.includes and the
XPath contains() predicate used by the source. -/
def infixOfB (pat : List Char) : List Char → Bool
  | [] => pat.isEmpty
  | c :: rest => List.isPrefixOf pat (c :: rest) || infixOfB pat rest

/-- strContains s pat: the string s contains pat as a substring. -/
def strContains (s pat : String) : Bool := infixOfB pat.data s.data

/-- utils.waitForElementVisible: resolves when the target is visible, throws
"Element not visible: selector" otherwise.  Visibility of the target in the
modelled page state is the boolean argument. -/
def waitForElementVisible (visible : Bool) (selector : String) : Except BotError Unit :=
  if visible then Except.ok () else Except.error (BotError.elementNotVisible selector)

/-- Outcome of one click attempt in the environment: whether the target was
visible when the attempt ran, whether page.click succeeded, and the message of
the underlying engine error when the click failed.  The engine error of a
failed page.click(selector) names the selector (puppeteer behaviour), which
the model keeps by carrying the selector in BotError.clickFail. -/
structure AttemptOutcome where
  visible : Bool
  clickOk : Bool
  cause : String
deriving DecidableEq, Repr

/-- One iteration of the utils.clickElement loop body: wait for visibility,
then page.click.  Returns none on success and the caught error otherwise. -/
def attemptResult (selector : String) (a : AttemptOutcome) : Option BotError :=
  match waitForElementVisible a.visible selector with
  | Except.error er => some er
  | Except.ok _ => if a.clickOk then none else some (BotError.clickFail selector a.cause)

/-- Fixed inter-attempt delay of utils.clickElement (delay(1000)). -/
def interAttemptDelayMs : Nat := 1000

/-- Default maxRetries of utils.clickElement. -/
def defaultMaxRetries : Nat := 3

/-- The retry loop of utils.clickElement, counting down the remaining
attempts.  First component is the returned value or thrown error; second
component is the total inter-attempt delay incurred.  The attempt outcomes
are indexed by the 1-based attempt counter of the source. -/
def clickElementGo (selector : String) (att : Nat → AttemptOutcome) :
    Nat → Nat → Except BotError Bool × Nat
  | _, 0 => (Except.ok false, 0)
  | i, n + 1 =>
    match attemptResult selector (att i) with
    | none => (Except.ok true, 0)
    | some er =>
      if n = 0 then (Except.error er, 0)
      else
        let r := clickElementGo selector att (i + 1) n
        (r.1, interAttemptDelayMs + r.2)

/-- utils.clickElement(page, selector, maxRetries): per attempt, wait for the
target to be visible then click; on failure of the last attempt rethrow the
last caught error, otherwise delay and retry. -/
def clickElement (selector : String) (att : Nat → AttemptOutcome) (maxRetries : Nat) :
    Except BotError Bool × Nat :=
  clickElementGo selector att 1 maxRetries

/-- utils.fillInput: wait for visibility, focus/clear/type; every failure is
caught, logged and converted to the return value false.  typeOk models the
focus/clear/type interaction succeeding. -/
def fillInput (selector : String) (visible typeOk : Bool) : Bool :=
  match waitForElementVisible visible selector with
  | Except.ok _ => typeOk
  | Except.error _ => false

/-- utils.selectOption: wait for visibility, page.select; every failure is
caught, logged and converted to the return value false. -/
def selectOption (selector : String) (visible selectOk : Bool) : Bool :=
  match waitForElementVisible visible selector with
  | Except.ok _ => selectOk
  | Except.error _ => false

/-- Result of the OTP wait loop in handleOTPVerification: either the
still-pending condition was observed cleared (completed) or the accumulated
wait reached the ceiling (timedOut). -/
inductive WaitResult where
  | completed
  | timedOut
deriving DecidableEq, Repr

/-- maxWaitTime constant of handleOTPVerification: 5 minutes. -/
def maxWaitTime : Nat := 300000

/-- checkInterval constant of handleOTPVerification: 2 seconds. -/
def checkInterval : Nat := 2000

/-- The while loop of handleOTPVerification, started at poll index k with
accumulated wait waited: while waited < timeout, poll the still-pending
predicate; break with completion when it is observed false, otherwise sleep
interval ms and add it to waited.  p j is the value of the still-pending
check at the j-th poll. -/
def awaitCompletionFrom (p : Nat → Bool) (interval timeout : Nat) (hpos : 0 < interval)
    (k waited : Nat) : WaitResult × Nat :=
  if h : waited < timeout then
    if p k then awaitCompletionFrom p interval timeout hpos (k + 1) (waited + interval)
    else (WaitResult.completed, waited)
  else (WaitResult.timedOut, waited)
termination_by timeout - waited
decreasing_by omega

/-- The OTP wait loop from its initial state (waitedTime = 0). -/
def awaitCompletion (p : Nat → Bool) (interval timeout : Nat) (hpos : 0 < interval) :
    WaitResult × Nat :=
  awaitCompletionFrom p interval timeout hpos 0 0

/-- The loop as instantiated by handleOTPVerification, with the constants of
the source. -/
def handleOTPWait (p : Nat → Bool) : WaitResult × Nat :=
  awaitCompletion p checkInterval maxWaitTime (by decide)

/-- The submit phase after the wait loop: try each submit selector in order;
a selector submits when the element exists and the click succeeds (failures
inside the loop body are caught and the loop continues); if no selector
submits, throw "Could not submit OTP".  Each list entry is the pair
(element exists, click succeeds) for one selector; the result carries the
index of the selector that submitted. -/
def otpSubmitPhase (selectors : List (Bool × Bool)) : Except BotError Nat :=
  match List.findIdx? (fun s => s.1 && s.2) selectors with
  | some i => Except.ok i
  | none => Except.error BotError.couldNotSubmitOTP

/-- handleOTPVerification after the OTP inputs were found: run the wait loop,
log a timeout warning when the accumulated wait reached the ceiling (second
component), then attempt submission regardless of the loop outcome. -/
def handleOTPVerification (p : Nat → Bool) (selectors : List (Bool × Bool)) :
    Except BotError Nat × Bool :=
  (otpSubmitPhase selectors, decide (maxWaitTime ≤ (handleOTPWait p).2))

/-- cardText.includes("All Day Pass") or cardText.includes("All-day Pass"). -/
def cardIsAllDay (cardText : String) : Bool :=
  strContains cardText "All Day Pass" || strContains cardText "All-day Pass"

/-- cardText.includes("Half Day Pass") or cardText.includes("Half-day Pass"). -/
def cardIsHalfDay (cardText : String) : Bool :=
  strContains cardText "Half Day Pass" || strContains cardText "Half-day Pass"

/-- The per-card test of the selectPassType loop. -/
def cardMatchesPassType (passType cardText : String) : Bool :=
  (passType == "all_day" && cardIsAllDay cardText) ||
    (passType == "half_day" && cardIsHalfDay cardText)

/-- selectPassType: click the first pass card whose text matches the
configured pass type; if none matches, click the first card as a logged
fallback; with no cards at all throw "No pass cards found".  The result
carries the text of the selected card and whether the fallback was used. -/
def selectPassType (passType : String) (passCards : List String) :
    Except BotError (String × Bool) :=
  match List.find? (cardMatchesPassType passType) passCards with
  | some t => Except.ok (t, false)
  | none =>
    match passCards with
    | [] => Except.error BotError.noPassCards
    | t :: _ => Except.ok (t, true)

/-- JavaScript String.split("/") on character lists: the accumulator holds the
current segment in reverse. -/
def splitOnSlashAux : List Char → List Char → List (List Char)
  | [], acc => [acc.reverse]
  | c :: rest, acc =>
    if c == '/' then acc.reverse :: splitOnSlashAux rest []
    else splitOnSlashAux rest (c :: acc)

/-- The regex test of selectDateFromNewPicker for the MM/DD form: exactly two
digits, a slash, two digits. -/
def isMMDD (s : String) : Bool :=
  match s.data with
  | [a, b, c, d, e] => a.isDigit && b.isDigit && (c == '/') && d.isDigit && e.isDigit
  | _ => false

/-- The regex test of selectDateFromNewPicker for the bare day form: one or
two digits. -/
def isBareDay (s : String) : Bool :=
  (s.data.length == 1 || s.data.length == 2) && s.data.all Char.isDigit

/-- config.preferredDate.split("/")[1]. -/
def dayOfMMDD (s : String) : String :=
  String.mk ((splitOnSlashAux s.data []).getD 1 [])

/-- The preferredDay variable of selectDateFromNewPicker: for MM/DD the day
component, for a bare 1-2 digit string the string itself, and undefined
(with an "Invalid date format" warning) otherwise. -/
def preferredDayOf (s : String) : Option String :=
  if isMMDD s then some (dayOfMMDD s)
  else if isBareDay s then some s
  else none

/-- Page state consulted by selectDateFromNewPicker: visibility of the
scheduler container, the configured preferred date ("" when unset, matching
JavaScript falsiness), the trimmed texts of the date buttons found by the
primary and the alternative selector, and the trimmed text of the
button.date.active element when one exists. -/
structure DateEnv where
  schedulerVisible : Bool
  preferredDate : String
  dateButtons : List String
  altDateButtons : List String
  activeDate : Option String
deriving DecidableEq, Repr

/-- Warning logged for an unparseable preferred date. -/
def wInvalidFormat : String := "Invalid date format"

/-- Warning logged when the primary date-button selector finds nothing. -/
def wNoDatesPrimary : String := "No dates found in scheduler, trying alternative selectors"

/-- Warning logged when the preferred date was not matched. -/
def wPreferredNotAvailable : String := "Preferred date not available, selecting first available"

/-- Warning logged when no date at all was selected. -/
def wNoDateSelected : String := "No date was selected from scheduler"

/-- Outcome of selectDateFromNewPicker: the text of the clicked date button
(none when nothing was clicked), the dateSelected flag, the warnings logged
in order, and the rethrown error when the stage failed. -/
structure DateResult where
  clicked : Option String
  dateSelected : Bool
  warnings : List String
  err : Option BotError
deriving DecidableEq, Repr

/-- The dateButtons array after the alternative-selector fallback: the
alternative buttons are appended only when the primary selector found none. -/
def effectiveDateButtons (env : DateEnv) : List String :=
  if env.dateButtons.isEmpty then env.altDateButtons else env.dateButtons

/-- The firstAvailableDate lookup: page.$ with the primary selector, then the
alternative selector. -/
def firstAvailableDate (env : DateEnv) : Option String :=
  match env.dateButtons with
  | t :: _ => some t
  | [] =>
    match env.altDateButtons with
    | t :: _ => some t
    | [] => none

/-- The body of the if (config.preferredDate) block of selectDateFromNewPicker:
parse the preferred day; when the already-active date button matches it, treat
the date as selected without clicking; otherwise click the first date button
whose trimmed text equals the day; record the warnings logged on the way.
Returns (dateSelected, clicked button text, warnings). -/
def datePdPhase (env : DateEnv) : Bool × Option String × List String :=
  let w2 := if env.dateButtons.isEmpty then [wNoDatesPrimary] else []
  match preferredDayOf env.preferredDate with
  | none => (false, none, wInvalidFormat :: (w2 ++ [wPreferredNotAvailable]))
  | some day =>
    if env.activeDate == some day then (true, none, w2)
    else
      match List.find? (fun t => t == day) (effectiveDateButtons env) with
      | some t => (true, some t, w2)
      | none => (false, none, w2 ++ [wPreferredNotAvailable])

/-- Selector of the scheduler date container. -/
def schedulerDateMainSelector : String := "#scheduler_12196 .dateMain"

/-- selectDateFromNewPicker: wait for the scheduler container (rethrowing
failure), run the preferred-date block when a preferred date is configured,
then select the first available date when nothing was selected yet; absence of
any date button only logs a warning and the stage still returns success. -/
def selectDateFromNewPicker (env : DateEnv) : DateResult :=
  if env.schedulerVisible = false then
    { clicked := none, dateSelected := false, warnings := [],
      err := some (BotError.elementNotVisible schedulerDateMainSelector) }
  else
    let pd := datePdPhase env
    let pdSet := !(env.preferredDate == "")
    let sel1 := if pdSet then pd.1 else false
    let clicked1 : Option String := if pdSet then pd.2.1 else none
    let w1 : List String := if pdSet then pd.2.2 else []
    if sel1 then { clicked := clicked1, dateSelected := true, warnings := w1, err := none }
    else
      match firstAvailableDate env with
      | some t => { clicked := some t, dateSelected := true, warnings := w1, err := none }
      | none =>
        { clicked := clicked1, dateSelected := false, warnings := w1 ++ [wNoDateSelected],
          err := none }

/-- The sentinel test of the third vehicle-selection tier: JavaScript
truthiness of the text plus the two literal sentinels. -/
def isSentinelVehicle (t : String) : Bool :=
  t == "" || t == "Select..." || t == "Add a Vehicle"

/-- The vehicle-list selection shared by handleVehicleSelection and
handleDropdownVehicleSelection: first the XPath contains(text(), model)
lookup (case-sensitive substring), then the translate-based case-insensitive
substring lookup, then the first entry that is not a sentinel; with no
candidate at all throw "No suitable vehicle found for selection".  The result
carries the text of the selected entry. -/
def selectVehicle (model : String) (vehicles : List String) : Except BotError String :=
  match List.find? (fun t => strContains t model) vehicles with
  | some t => Except.ok t
  | none =>
    match List.find? (fun t => strContains t.toLower model.toLower) vehicles with
    | some t => Except.ok t
    | none =>
      match List.find? (fun t => !isSentinelVehicle t) vehicles with
      | some t => Except.ok t
      | none => Except.error BotError.noSuitableVehicle

/-- The vehicle-list selection as the claim words it, for comparison with
selectVehicle: first tier an exact case-sensitive match of the model, third
tier excluding only the two literal sentinels. -/
def selectVehicleClaimed (model : String) (vehicles : List String) : Except BotError String :=
  match List.find? (fun t => t == model) vehicles with
  | some t => Except.ok t
  | none =>
    match List.find? (fun t => strContains t.toLower model.toLower) vehicles with
    | some t => Except.ok t
    | none =>
      match List.find? (fun t => !(t == "Select...") && !(t == "Add a Vehicle")) vehicles with
      | some t => Except.ok t
      | none => Except.error BotError.noSuitableVehicle

/-- Selector constants used by the modelled stages. -/
def selectVehicleSelector : String := "#selectVehicleSmartSelect"

def licensePlateInputSelector : String := "licensePlateInput"

def provinceSelectSelector : String := "provinceSelect"

def colorSelectSelector : String := "colorSelect"

def makeSelectSelector : String := "makeSelect"

def modelInputSelector : String := "modelInput"

def saveVehicleBtnSelector : String := "saveVehicleBtn"

def addToCartBtnSelector : String := "addToCartBtn"

def checkoutBtnSelector : String := "checkoutBtn"

def vehiclePopupSelector : String := ".page.smart-select-page[data-name=\"smart-select-page\"]"

def searchInputSelector : String := "input[type=\"search\"][placeholder=\"Search vehicle\"]"

/-- Environment of one bot run: the outcomes of every browser interaction the
run may perform.  Element-existence probes and visibility waits are booleans,
retried clicks are per-attempt outcome streams, and the login stage (whose
internals are modelled separately through handleOTPVerification) is summarised
by its resulting error, if any. -/
structure RunEnv where
  initOk : Bool
  navOk : Bool
  passType : String
  passCards : List String
  vehicleSelectExists : Bool
  signedInVehicleVisible : Bool
  vehSelectClickAttempts : Nat → AttemptOutcome
  addVehicleOptionExists : Bool
  licensePlateVisible : Bool
  plateTypeOk : Bool
  provinceVisible : Bool
  provinceSelectOk : Bool
  colorVisible : Bool
  colorSelectOk : Bool
  makeVisible : Bool
  makeSelectOk : Bool
  modelInputVisible : Bool
  modelTypeOk : Bool
  saveClickAttempts : Nat → AttemptOutcome
  dateEnv : DateEnv
  addToCartBtnVisible : Bool
  soldOut : Bool
  cartClickAttempts : Nat → AttemptOutcome
  loginFormVisible : Bool
  loginResult : Option BotError
  postLoginVehicleSelectorExists : Bool
  smartSelectLinkExists : Bool
  vehiclePopupVisible : Bool
  searchInputVisible : Bool
  vehicleModel : String
  vehicleTitles : List String
  checkoutBtnVisible : Bool
  checkoutClickAttempts : Nat → AttemptOutcome

/-- Result of a stage that may register a vehicle: the vehicleAdded flag after
the stage, the number of registration-form submissions performed (save clicks
that succeeded), and the rethrown error when the stage failed.  The flag
survives a thrown error unchanged, as the instance field does in the source. -/
structure StageOut where
  vehicleAdded : Bool
  submits : Nat
  err : Option BotError
deriving DecidableEq, Repr

/-- fillVehicleForm: wait for the license-plate input (rethrowing failure),
fill/select the five vehicle fields ignoring their boolean results, click the
save button through utils.clickElement (rethrowing failure), then set
vehicleAdded = true. -/
def fillVehicleForm (e : RunEnv) (vehicleAdded : Bool) : StageOut :=
  match waitForElementVisible e.licensePlateVisible licensePlateInputSelector with
  | Except.error er => ⟨vehicleAdded, 0, some er⟩
  | Except.ok _ =>
    let _r1 := fillInput licensePlateInputSelector e.licensePlateVisible e.plateTypeOk
    let _r2 := selectOption provinceSelectSelector e.provinceVisible e.provinceSelectOk
    let _r3 := selectOption colorSelectSelector e.colorVisible e.colorSelectOk
    let _r4 := selectOption makeSelectSelector e.makeVisible e.makeSelectOk
    let _r5 := fillInput modelInputSelector e.modelInputVisible e.modelTypeOk
    match (clickElement saveVehicleBtnSelector e.saveClickAttempts defaultMaxRetries).1 with
    | Except.error er => ⟨vehicleAdded, 0, some er⟩
    | Except.ok _ => ⟨true, 1, none⟩

/-- handleVehicleSelectionForSignedInUser: wait for and click the vehicle
selector; when vehicleAdded is still false and the "Add a Vehicle" option is
present, fill and submit the registration form; otherwise click an existing
vehicle option when one is present (never an error either way). -/
def handleVehicleSelectionForSignedInUser (e : RunEnv) (vehicleAdded : Bool) : StageOut :=
  match waitForElementVisible e.signedInVehicleVisible selectVehicleSelector with
  | Except.error er => ⟨vehicleAdded, 0, some er⟩
  | Except.ok _ =>
    match (clickElement selectVehicleSelector e.vehSelectClickAttempts defaultMaxRetries).1 with
    | Except.error er => ⟨vehicleAdded, 0, some er⟩
    | Except.ok _ =>
      if vehicleAdded = false then
        if e.addVehicleOptionExists then fillVehicleForm e vehicleAdded
        else ⟨vehicleAdded, 0, none⟩
      else ⟨vehicleAdded, 0, none⟩

/-- addToCart: wait for the add-to-cart button, throw "Pass is sold out for
the selected date" when the sold-out indicator is present, otherwise click the
button through utils.clickElement. -/
def addToCart (e : RunEnv) : Except BotError Unit :=
  match waitForElementVisible e.addToCartBtnVisible addToCartBtnSelector with
  | Except.error er => Except.error er
  | Except.ok _ =>
    if e.soldOut then Except.error BotError.soldOut
    else
      match (clickElement addToCartBtnSelector e.cartClickAttempts defaultMaxRetries).1 with
      | Except.error er => Except.error er
      | Except.ok _ => Except.ok ()

/-- The tail of handleSignedInBooking after the vehicle step: date selection
from the new picker, then addToCart, each rethrowing its failure. -/
def sbAfterVehicle (e : RunEnv) (v : StageOut) : StageOut :=
  match v.err with
  | some _ => v
  | none =>
    match (selectDateFromNewPicker e.dateEnv).err with
    | some er => ⟨v.vehicleAdded, v.submits, some er⟩
    | none =>
      match addToCart e with
      | Except.error er => ⟨v.vehicleAdded, v.submits, some er⟩
      | Except.ok _ => ⟨v.vehicleAdded, v.submits, none⟩

/-- handleSignedInBooking: run the signed-in vehicle step when the vehicle
selector exists, then date selection and addToCart. -/
def handleSignedInBooking (e : RunEnv) (vehicleAdded : Bool) : StageOut :=
  sbAfterVehicle e
    (if e.vehicleSelectExists then handleVehicleSelectionForSignedInUser e vehicleAdded
     else ⟨vehicleAdded, 0, none⟩)

/-- handleVehicleSelection: wait for the vehicle popup and the search input
(rethrowing failure), then select from the vehicle list with the three-tier
policy of selectVehicle. -/
def handleVehicleSelection (e : RunEnv) : Option BotError :=
  match waitForElementVisible e.vehiclePopupVisible vehiclePopupSelector with
  | Except.error er => some er
  | Except.ok _ =>
    match waitForElementVisible e.searchInputVisible searchInputSelector with
    | Except.error er => some er
    | Except.ok _ =>
      match selectVehicle e.vehicleModel e.vehicleTitles with
      | Except.error er => some er
      | Except.ok _ => none

/-- handleDropdownVehicleSelection (post-login): throw when the smart-select
link is absent; otherwise open the popup, wait for it and the search input,
and select from the vehicle list with the same three-tier policy.  The code
positioned after the unconditional return in the source is unreachable and is
not modelled. -/
def handleDropdownVehicleSelection (e : RunEnv) : Option BotError :=
  if e.smartSelectLinkExists = false then some BotError.smartSelectLinkNotFound
  else
    match waitForElementVisible e.vehiclePopupVisible vehiclePopupSelector with
    | Except.error er => some er
    | Except.ok _ =>
      match waitForElementVisible e.searchInputVisible searchInputSelector with
      | Except.error er => some er
      | Except.ok _ =>
        match selectVehicle e.vehicleModel e.vehicleTitles with
        | Except.error er => some er
        | Except.ok _ => none

/-- handlePostLoginFlow: throw when no vehicle selector is found on the
post-login page; otherwise dropdown vehicle selection, date selection from the
new picker, and addToCart, each rethrowing its failure. -/
def handlePostLoginFlow (e : RunEnv) : Option BotError :=
  if e.postLoginVehicleSelectorExists = false then some BotError.postLoginPageNotLoaded
  else
    match handleDropdownVehicleSelection e with
    | some er => some er
    | none =>
      match (selectDateFromNewPicker e.dateEnv).err with
      | some er => some er
      | none =>
        match addToCart e with
        | Except.error er => some er
        | Except.ok _ => none

/-- completeCheckout: wait for the checkout button and click it through
utils.clickElement, rethrowing failure. -/
def completeCheckout (e : RunEnv) : Option BotError :=
  match waitForElementVisible e.checkoutBtnVisible checkoutBtnSelector with
  | Except.error er => some er
  | Except.ok _ =>
    match (clickElement checkoutBtnSelector e.checkoutClickAttempts defaultMaxRetries).1 with
    | Except.error er => some er
    | Except.ok _ => none

/-- The stages of bookParkingPass, recorded in the order they start. -/
inductive Stage where
  | init
  | navigate
  | infoPopup
  | passType
  | signedInBooking
  | dateSelect
  | cartAdd
  | login
  | postLogin
  | checkout
deriving DecidableEq, Repr

/-- Result of one bookParkingPass run: the stages that started, in order, the
final vehicleAdded flag, the number of registration submissions, and the error
that aborted the run, if any. -/
structure RunResult where
  trace : List Stage
  vehicleAdded : Bool
  submits : Nat
  err : Option BotError
deriving Repr

/-- bookParkingPass: the top-level run.  handleInfoPopup swallows every error
and is always successful.  After selectPassType, presence of the vehicle
selector routes to the signed-in branch; its absence routes to the guest
branch (date selection, addToCart triggering login, login, post-login flow).
completeCheckout runs only when every earlier stage succeeded. -/
def bookParkingPass (e : RunEnv) : RunResult :=
  if e.initOk = false then ⟨[Stage.init], false, 0, some BotError.initFailed⟩
  else if e.navOk = false then
    ⟨[Stage.init, Stage.navigate], false, 0, some BotError.navFailed⟩
  else
    match selectPassType e.passType e.passCards with
    | Except.error er =>
      ⟨[Stage.init, Stage.navigate, Stage.infoPopup, Stage.passType], false, 0, some er⟩
    | Except.ok _ =>
      if e.vehicleSelectExists then
        match (handleSignedInBooking e false).err with
        | some er =>
          ⟨[Stage.init, Stage.navigate, Stage.infoPopup, Stage.passType, Stage.signedInBooking],
            (handleSignedInBooking e false).vehicleAdded,
            (handleSignedInBooking e false).submits, some er⟩
        | none =>
          ⟨[Stage.init, Stage.navigate, Stage.infoPopup, Stage.passType, Stage.signedInBooking,
              Stage.checkout],
            (handleSignedInBooking e false).vehicleAdded,
            (handleSignedInBooking e false).submits, completeCheckout e⟩
      else
        match (selectDateFromNewPicker e.dateEnv).err with
        | some er =>
          ⟨[Stage.init, Stage.navigate, Stage.infoPopup, Stage.passType, Stage.dateSelect],
            false, 0, some er⟩
        | none =>
          match addToCart e with
          | Except.error er =>
            ⟨[Stage.init, Stage.navigate, Stage.infoPopup, Stage.passType, Stage.dateSelect,
                Stage.cartAdd], false, 0, some er⟩
          | Except.ok _ =>
            if e.loginFormVisible = false then
              ⟨[Stage.init, Stage.navigate, Stage.infoPopup, Stage.passType, Stage.dateSelect,
                  Stage.cartAdd], false, 0, some BotError.loginFormNotFound⟩
            else
              match e.loginResult with
              | some er =>
                ⟨[Stage.init, Stage.navigate, Stage.infoPopup, Stage.passType, Stage.dateSelect,
                    Stage.cartAdd, Stage.login], false, 0, some er⟩
              | none =>
                match handlePostLoginFlow e with
                | some er =>
                  ⟨[Stage.init, Stage.navigate, Stage.infoPopup, Stage.passType, Stage.dateSelect,
                      Stage.cartAdd, Stage.login, Stage.postLogin], false, 0, some er⟩
                | none =>
                  ⟨[Stage.init, Stage.navigate, Stage.infoPopup, Stage.passType, Stage.dateSelect,
                      Stage.cartAdd, Stage.login, Stage.postLogin, Stage.checkout],
                    false, 0, completeCheckout e⟩

/-- The scheduler state: the single external is-a-run-currently-active guard. -/
structure SchedulerState where
  isRunning : Bool
deriving DecidableEq, Repr

/-- runScheduledJob: when the guard is set, log a warning and return without
constructing or running a bot; otherwise set the guard, run the bot (its
failure is caught and logged), and clear the guard in the finally block.  The
second component records whether a bot run was started. -/
def runScheduledJob (s : SchedulerState) (e : RunEnv) : SchedulerState × Bool :=
  if s.isRunning then (s, false)
  else
    let _r := bookParkingPass e
    ({ isRunning := false }, true)

/-- An all-good click-attempt stream for concrete environments. -/
def goodAttempts : Nat → AttemptOutcome := fun _ => ⟨true, true, ""⟩

/-- A date environment in which everything is present. -/
def demoDateEnv : DateEnv :=
  { schedulerVisible := true, preferredDate := "08/17", dateButtons := ["16", "17", "18"],
    altDateButtons := [], activeDate := some "16" }

/-- A run environment in which every interaction succeeds. -/
def demoEnv : RunEnv :=
  { initOk := true, navOk := true, passType := "all_day", passCards := ["All Day Pass"],
    vehicleSelectExists := true, signedInVehicleVisible := true,
    vehSelectClickAttempts := goodAttempts, addVehicleOptionExists := true,
    licensePlateVisible := true, plateTypeOk := true, provinceVisible := true,
    provinceSelectOk := true, colorVisible := true, colorSelectOk := true,
    makeVisible := true, makeSelectOk := true, modelInputVisible := true, modelTypeOk := true,
    saveClickAttempts := goodAttempts, dateEnv := demoDateEnv, addToCartBtnVisible := true,
    soldOut := false, cartClickAttempts := goodAttempts, loginFormVisible := true,
    loginResult := none, postLoginVehicleSelectorExists := true, smartSelectLinkExists := true,
    vehiclePopupVisible := true, searchInputVisible := true, vehicleModel := "Civic",
    vehicleTitles := ["Honda Civic ABC123"], checkoutBtnVisible := true,
    checkoutClickAttempts := goodAttempts }

/-- Attempt stream whose attempts 1 and 2 fail on visibility and whose attempt
3 succeeds. -/
def demoAttempts : Nat → AttemptOutcome :=
  fun n => if n < 3 then ⟨false, true, "boom"⟩ else ⟨true, true, ""⟩

/-- A run environment in which the pass is sold out. -/
def demoSoldOutEnv : RunEnv := { demoEnv with soldOut := true }

/-- A run environment in which every field fill and select of the vehicle form
fails while the form itself is reachable and the save click succeeds. -/
def demoFailFillEnv : RunEnv :=
  { demoEnv with
    plateTypeOk := false
    provinceSelectOk := false
    colorSelectOk := false
    makeSelectOk := false
    modelTypeOk := false }

/-- List.find? returns the element at the first index satisfying the
predicate. -/
theorem find?_eq_of_first {α : Type} (p : α → Bool) :
    ∀ (l : List α) (i : Nat) (h : i < l.length), p (l.get ⟨i, h⟩) = true →
      (∀ j (hj : j < i), p (l.get ⟨j, Nat.lt_trans hj h⟩) = false) →
      List.find? p l = some (l.get ⟨i, h⟩)
  | [], i, h => by simp at h
  | a :: t, 0, h => by
    intro hp _
    simp only [List.get] at hp ⊢
    simp [List.find?_cons_of_pos, hp]
  | a :: t, i + 1, h => by
    intro hp hall
    have h0 : p a = false := hall 0 (Nat.succ_pos i)
    have ht : i < t.length := by simpa using h
    have := find?_eq_of_first p t i ht hp (fun j hj => hall (j + 1) (Nat.succ_lt_succ hj))
    simpa [List.find?_cons_of_neg, h0] using this

/-- List.find? returns none when the predicate fails everywhere. -/
theorem find?_none_of_all {α : Type} (p : α → Bool) (l : List α)
    (h : ∀ x ∈ l, p x = false) : List.find? p l = none :=
  List.find?_eq_none.mpr (fun x hx => by simp [h x hx])

/-- The wait loop observes the condition cleared at poll k (all earlier polls
pending) while the accumulated wait is still below the ceiling: it stops right
there with a completion after k full intervals of accumulated wait. -/
theorem awaitFrom_completed (p : Nat → Bool) (interval timeout : Nat) (hpos : 0 < interval)
    (k0 w k : Nat) (hw : w = k0 * interval) (hk : k0 ≤ k)
    (hall : ∀ j, k0 ≤ j → j < k → p j = true) (hpk : p k = false)
    (hkt : k * interval < timeout) :
    awaitCompletionFrom p interval timeout hpos k0 w = (WaitResult.completed, k * interval) := by
  have hmul : k0 * interval ≤ k * interval := Nat.mul_le_mul_right interval hk
  have hwlt : w < timeout := by omega
  rw [awaitCompletionFrom, dif_pos hwlt]
  rcases Nat.eq_or_lt_of_le hk with heq | hlt
  · subst heq
    rw [hpk]
    simp [hw]
  · have hpk0 : p k0 = true := hall k0 (Nat.le_refl k0) hlt
    rw [hpk0]
    simp only [if_true]
    exact awaitFrom_completed p interval timeout hpos (k0 + 1) (w + interval) k
      (by rw [hw]; ring) hlt (fun j hj1 hj2 => hall j (by omega) hj2) hpk hkt
termination_by k - k0
decreasing_by omega

/-- While the condition stays pending at every poll inside the window, the
wait loop times out with an accumulated wait of at least the ceiling and less
than the ceiling plus one interval. -/
theorem awaitFrom_pending (p : Nat → Bool) (interval timeout : Nat) (hpos : 0 < interval)
    (k w : Nat) (hw : w = k * interval) (hlt : w < timeout + interval)
    (hp : ∀ j, k ≤ j → j * interval < timeout → p j = true) :
    (awaitCompletionFrom p interval timeout hpos k w).1 = WaitResult.timedOut ∧
      timeout ≤ (awaitCompletionFrom p interval timeout hpos k w).2 ∧
      (awaitCompletionFrom p interval timeout hpos k w).2 < timeout + interval := by
  rw [awaitCompletionFrom]
  by_cases hwt : w < timeout
  · rw [dif_pos hwt]
    have hpk : p k = true := hp k (Nat.le_refl k) (by omega)
    rw [hpk]
    simp only [if_true]
    exact awaitFrom_pending p interval timeout hpos (k + 1) (w + interval)
      (by rw [hw]; ring) (by omega) (fun j hj1 hj2 => hp j (by omega) hj2)
  · rw [dif_neg hwt]
    exact ⟨rfl, by omega, by omega⟩
termination_by timeout - w
decreasing_by omega

/-- Claim C1: the OTP wait loop polls the still-pending condition at the poll
interval; it stops with a completion as soon as a poll observes the condition
cleared (which then happens strictly inside the window), otherwise it stops
once the accumulated wait reaches the timeout, and the accumulated wait never
exceeds timeoutMs + pollIntervalMs; the defaults of the source are a 2-second
interval and a 5-minute ceiling. -/
theorem claim_C1_otp_wait_policy (p : Nat → Bool) (interval timeout : Nat)
    (hpos : 0 < interval) :
    (∀ k, (∀ j, j < k → p j = true) → p k = false → k * interval < timeout →
        awaitCompletion p interval timeout hpos = (WaitResult.completed, k * interval)) ∧
      ((∀ k, k * interval < timeout → p k = true) →
        (awaitCompletion p interval timeout hpos).1 = WaitResult.timedOut ∧
          timeout ≤ (awaitCompletion p interval timeout hpos).2 ∧
          (awaitCompletion p interval timeout hpos).2 ≤ timeout + interval) ∧
      checkInterval = 2000 ∧ maxWaitTime = 300000 := by
  refine ⟨?_, ?_, rfl, rfl⟩
  · intro k hall hpk hkt
    exact awaitFrom_completed p interval timeout hpos 0 0 k (by simp) (Nat.zero_le k)
      (fun j _ hj => hall j hj) hpk hkt
  · intro hpend
    have h := awaitFrom_pending p interval timeout hpos 0 0 (by simp) (by omega)
      (fun j _ hj => hpend j hj)
    exact ⟨h.1, h.2.1, Nat.le_of_lt h.2.2⟩

/-- Witness for C1 at a concrete trace and policy: the condition clears at the
second poll of a 2ms/5ms policy, so the loop completes after 2ms of wait. -/
theorem claim_C1_otp_wait_policy_witness :
    (0:Nat) < 2 ∧
      awaitCompletion (fun k => decide (k < 1)) 2 5 (by decide) =
        (WaitResult.completed, 2) := by
  refine ⟨by decide, ?_⟩
  have h := (claim_C1_otp_wait_policy (fun k => decide (k < 1)) 2 5 (by decide)).1 1
    (fun j hj => decide_eq_true hj) (by decide) (by decide)
  simpa using h

/-- Claim C7: a checkpoint timeout is never fatal.  The OTP submit phase after
the wait loop does not depend on the loop outcome; the only error the phase
can produce is "Could not submit OTP" (never a timeout error); and on a trace
that stays pending forever, the timeout warning is logged and submission is
still attempted with the same result. -/
theorem claim_C7_timeout_not_fatal (p : Nat → Bool) (selectors : List (Bool × Bool)) :
    (handleOTPVerification p selectors).1 = otpSubmitPhase selectors ∧
      (∀ er, (handleOTPVerification p selectors).1 = Except.error er →
        er = BotError.couldNotSubmitOTP) ∧
      ((∀ k, p k = true) → (handleOTPVerification p selectors).2 = true ∧
        (handleOTPVerification p selectors).1 = otpSubmitPhase selectors) := by
  refine ⟨rfl, ?_, ?_⟩
  · intro er her
    unfold handleOTPVerification otpSubmitPhase at her
    cases hfi : List.findIdx? (fun s => s.1 && s.2) selectors with
    | some i => rw [hfi] at her; simp at her
    | none => rw [hfi] at her; simp at her; exact her.symm
  · intro hpend
    have h := awaitFrom_pending p checkInterval maxWaitTime (by decide) 0 0 (by simp)
      (by decide) (fun j _ _ => hpend j)
    exact ⟨decide_eq_true h.2.1, rfl⟩

/-- Witness for C7: a trace that never clears, one working submit selector. -/
theorem claim_C7_timeout_not_fatal_witness :
    (handleOTPVerification (fun _ => true) [(true, true)]).2 = true ∧
      (handleOTPVerification (fun _ => true) [(true, true)]).1 = Except.ok 0 := by
  have h := (claim_C7_timeout_not_fatal (fun _ => true) [(true, true)]).2.2 (fun _ => rfl)
  exact ⟨h.1, by rw [h.2]; rfl⟩

/-- Claim C8: a trigger invocation arriving while the is-running guard is set
returns without running a bot and leaves the guard unchanged. -/
theorem claim_C8_guard_skips (s : SchedulerState) (e : RunEnv) (h : s.isRunning = true) :
    runScheduledJob s e = (s, false) := by
  simp [runScheduledJob, h]

/-- Witness for C8 at a set guard and a concrete environment. -/
theorem claim_C8_guard_skips_witness :
    (SchedulerState.mk true).isRunning = true ∧
      runScheduledJob (SchedulerState.mk true) demoEnv = (SchedulerState.mk true, false) :=
  ⟨rfl, claim_C8_guard_skips (SchedulerState.mk true) demoEnv rfl⟩

/-- One unfolding step of the click retry loop with at least one attempt
remaining. -/
theorem clickElementGo_succ (selector : String) (att : Nat → AttemptOutcome) (i n : Nat) :
    clickElementGo selector att i (n + 1) =
      match attemptResult selector (att i) with
      | none => (Except.ok true, 0)
      | some er =>
        if n = 0 then (Except.error er, 0)
        else ((clickElementGo selector att (i + 1) n).1,
          interAttemptDelayMs + (clickElementGo selector att (i + 1) n).2) := rfl

/-- The click retry loop succeeds at the (k+1)-th attempt when the first k
attempts fail and attempt i + k succeeds, having slept k inter-attempt
delays. -/
theorem clickElementGo_ok (selector : String) (att : Nat → AttemptOutcome) :
    ∀ (n i k : Nat), k < n →
      (∀ j, i ≤ j → j < i + k → attemptResult selector (att j) ≠ none) →
      attemptResult selector (att (i + k)) = none →
      clickElementGo selector att i n = (Except.ok true, k * interAttemptDelayMs)
  | 0, i, k => by omega
  | n + 1, i, 0 => by
    intro _ _ hs
    simp only [Nat.add_zero] at hs
    simp [clickElementGo_succ, hs]
  | n + 1, i, k + 1 => by
    intro hk hfail hs
    obtain ⟨er, her⟩ : ∃ er, attemptResult selector (att i) = some er := by
      have := hfail i (Nat.le_refl i) (by omega)
      cases h : attemptResult selector (att i) with
      | none => exact absurd h this
      | some er => exact ⟨er, rfl⟩
    have hn : n ≠ 0 := by omega
    have ih := clickElementGo_ok selector att n (i + 1) k (by omega)
      (fun j hj1 hj2 => hfail j (by omega) (by omega))
      (by have heq : i + 1 + k = i + (k + 1) := by omega
          rw [heq]; exact hs)
    simp only [clickElementGo_succ, her]
    rw [if_neg hn, ih]
    simp only [Prod.mk.injEq, interAttemptDelayMs]
    exact ⟨trivial, by omega⟩

/-- The click retry loop, with every one of its n attempts failing, rethrows
the error of the last attempt after n-1 inter-attempt delays. -/
theorem clickElementGo_fail (selector : String) (att : Nat → AttemptOutcome) :
    ∀ (n i : Nat) (er : BotError), 0 < n →
      (∀ j, i ≤ j → j < i + n → attemptResult selector (att j) ≠ none) →
      attemptResult selector (att (i + n - 1)) = some er →
      clickElementGo selector att i n = (Except.error er, (n - 1) * interAttemptDelayMs)
  | 0, i, er => by omega
  | 1, i, er => by
    intro _ _ hlast
    have heq : i + 1 - 1 = i := by omega
    rw [heq] at hlast
    show clickElementGo selector att i (0 + 1) = _
    simp [clickElementGo_succ, hlast]
  | n + 2, i, er => by
    intro _ hfail hlast
    obtain ⟨e1, he1⟩ : ∃ e1, attemptResult selector (att i) = some e1 := by
      have := hfail i (Nat.le_refl i) (by omega)
      cases h : attemptResult selector (att i) with
      | none => exact absurd h this
      | some e1 => exact ⟨e1, rfl⟩
    have ih := clickElementGo_fail selector att (n + 1) (i + 1) er (by omega)
      (fun j hj1 hj2 => hfail j (by omega) (by omega))
      (by have heq : i + 1 + (n + 1) - 1 = i + (n + 2) - 1 := by omega
          rw [heq]; exact hlast)
    show clickElementGo selector att i (n + 1 + 1) = _
    rw [clickElementGo_succ selector att i (n + 1)]
    simp only [he1]
    rw [if_neg (by omega : n + 1 ≠ 0), ih]
    simp only [Prod.mk.injEq, interAttemptDelayMs]
    exact ⟨trivial, by omega⟩

/-- Claim C9: each click attempt first waits for the target to be visible
(an invisible target fails the attempt with an error naming the target, the
click outcome being irrelevant); every error an attempt produces names the
target and carries the last underlying cause; with the default of 3 attempts,
the first succeeding attempt i returns success after i-1 fixed inter-attempt
delays; and when all 3 attempts fail, the error of the last attempt is
rethrown after 2 fixed inter-attempt delays. -/
theorem claim_C9_click_retry (selector : String) (att : Nat → AttemptOutcome) :
    (∀ i, (att i).visible = false →
        attemptResult selector (att i) = some (BotError.elementNotVisible selector)) ∧
      (∀ a er, attemptResult selector a = some er →
        er = BotError.elementNotVisible selector ∨ ∃ c, er = BotError.clickFail selector c) ∧
      (∀ i, 1 ≤ i → i ≤ defaultMaxRetries →
        (∀ j, 1 ≤ j → j < i → attemptResult selector (att j) ≠ none) →
        attemptResult selector (att i) = none →
        clickElement selector att defaultMaxRetries =
          (Except.ok true, (i - 1) * interAttemptDelayMs)) ∧
      (∀ er, (∀ j, 1 ≤ j → j < defaultMaxRetries → attemptResult selector (att j) ≠ none) →
        attemptResult selector (att defaultMaxRetries) = some er →
        clickElement selector att defaultMaxRetries =
          (Except.error er, (defaultMaxRetries - 1) * interAttemptDelayMs)) := by
  refine ⟨?_, ?_, ?_, ?_⟩
  · intro i h
    simp [attemptResult, waitForElementVisible, h]
  · intro a er h
    obtain ⟨av, ac, acause⟩ := a
    cases av with
    | false =>
      simp [attemptResult, waitForElementVisible] at h
      exact Or.inl h.symm
    | true =>
      cases ac with
      | false =>
        simp [attemptResult, waitForElementVisible] at h
        exact Or.inr ⟨acause, h.symm⟩
      | true => simp [attemptResult, waitForElementVisible] at h
  · intro i h1 hle hfail hsucc
    have hle3 : i ≤ 3 := hle
    have h := clickElementGo_ok selector att 3 1 (i - 1) (by omega)
      (fun j hj1 hj2 => hfail j hj1 (by omega))
      (by have heq : 1 + (i - 1) = i := by omega
          rw [heq]; exact hsucc)
    exact h
  · intro er hfail hlast
    have hfail3 : ∀ j, 1 ≤ j → j < 3 → attemptResult selector (att j) ≠ none := hfail
    have hlast3 : attemptResult selector (att 3) = some er := hlast
    have h := clickElementGo_fail selector att 3 1 er (by omega)
      (fun j hj1 hj2 => by
        rcases Nat.lt_or_ge j 3 with hj | hj
        · exact hfail3 j hj1 hj
        · have heq : j = 3 := by omega
          rw [heq, hlast3]; simp)
      (by exact hlast3)
    exact h

/-- Witness for C9: two invisible attempts followed by a success, with the
accumulated delay of two retries. -/
theorem claim_C9_click_retry_witness :
    (1:Nat) ≤ 3 ∧
      clickElement "btn" demoAttempts defaultMaxRetries = (Except.ok true, 2000) := by
  refine ⟨by decide, ?_⟩
  have h := (claim_C9_click_retry "btn" demoAttempts).2.2.1 3 (by decide) (by decide)
    (fun j h1 h2 => by interval_cases j <;> decide) (by decide)
  exact h

/-- Claim C10: utils.fillInput and utils.selectOption convert every failure to
the return value false instead of throwing, and fillVehicleForm ignores those
boolean results: with every one of the five field operations failing (while
the form is reachable and the save click succeeds), the stage still sets
vehicleAdded = true, performs its submission and reports success. -/
theorem claim_C10_fill_results_ignored (e : RunEnv)
    (hplate : e.licensePlateVisible = true)
    (hf1 : fillInput licensePlateInputSelector e.licensePlateVisible e.plateTypeOk = false)
    (hf2 : selectOption provinceSelectSelector e.provinceVisible e.provinceSelectOk = false)
    (hf3 : selectOption colorSelectSelector e.colorVisible e.colorSelectOk = false)
    (hf4 : selectOption makeSelectSelector e.makeVisible e.makeSelectOk = false)
    (hf5 : fillInput modelInputSelector e.modelInputVisible e.modelTypeOk = false)
    (hsave : attemptResult saveVehicleBtnSelector (e.saveClickAttempts 1) = none) :
    fillVehicleForm e false = ⟨true, 1, none⟩ := by
  have hclick := clickElementGo_ok saveVehicleBtnSelector e.saveClickAttempts 3 1 0
    (by omega) (fun j hj1 hj2 => absurd hj2 (by omega)) hsave
  simp only [fillVehicleForm, waitForElementVisible, hplate, if_true, clickElement,
    defaultMaxRetries]
  rw [hclick]

/-- Witness for C10: the all-fills-failing environment. -/
theorem claim_C10_fill_results_ignored_witness :
    fillVehicleForm demoFailFillEnv false = ⟨true, 1, none⟩ :=
  claim_C10_fill_results_ignored demoFailFillEnv rfl rfl rfl rfl rfl rfl rfl

/-- A successful signed-in vehicle-resolution call that starts with the flag
false and sees the registration affordance submits the registration form
exactly once and flips the flag to true. -/
theorem signedIn_first_call (e : RunEnv) (haff : e.addVehicleOptionExists = true)
    (hok : (handleVehicleSelectionForSignedInUser e false).err = none) :
    handleVehicleSelectionForSignedInUser e false = ⟨true, 1, none⟩ := by
  by_cases hv : e.signedInVehicleVisible = true
  · cases hc : (clickElement selectVehicleSelector e.vehSelectClickAttempts defaultMaxRetries).1
      with
    | error er =>
      simp [handleVehicleSelectionForSignedInUser, waitForElementVisible, hv, hc] at hok
    | ok b =>
      by_cases hl : e.licensePlateVisible = true
      · cases hs : (clickElement saveVehicleBtnSelector e.saveClickAttempts defaultMaxRetries).1
          with
        | error er =>
          simp [handleVehicleSelectionForSignedInUser, fillVehicleForm, waitForElementVisible,
            hv, hc, haff, hl, hs] at hok
        | ok b2 =>
          simp [handleVehicleSelectionForSignedInUser, fillVehicleForm, waitForElementVisible,
            hv, hc, haff, hl, hs]
      · have hl2 : e.licensePlateVisible = false := by simpa using hl
        simp [handleVehicleSelectionForSignedInUser, fillVehicleForm, waitForElementVisible,
          hv, hc, haff, hl2] at hok
  · have hv2 : e.signedInVehicleVisible = false := by simpa using hv
    simp [handleVehicleSelectionForSignedInUser, waitForElementVisible, hv2] at hok

/-- A vehicle-resolution call that observes the flag already true performs no
registration submission and leaves the flag true, whether it succeeds or
fails. -/
theorem signedIn_second_call (e : RunEnv) :
    (handleVehicleSelectionForSignedInUser e true).submits = 0 ∧
      (handleVehicleSelectionForSignedInUser e true).vehicleAdded = true := by
  unfold handleVehicleSelectionForSignedInUser
  cases hv : waitForElementVisible e.signedInVehicleVisible selectVehicleSelector with
  | error er => simp
  | ok u =>
    cases hc : (clickElement selectVehicleSelector e.vehSelectClickAttempts defaultMaxRetries).1
      with
    | error er => simp
    | ok b => simp

/-- Claim C3: a run starting with the vehicle-registered flag false and the
registration affordance present performs exactly one registration submission
(when the resolution call succeeds) and flips the flag to true; a later
resolution call observing the flag true performs no registration submission
and keeps the flag true, so the flag transitions false to true at most once
per run. -/
theorem claim_C3_register_once (e1 e2 : RunEnv)
    (haff : e1.addVehicleOptionExists = true)
    (hok : (handleVehicleSelectionForSignedInUser e1 false).err = none) :
    (handleVehicleSelectionForSignedInUser e1 false).vehicleAdded = true ∧
      (handleVehicleSelectionForSignedInUser e1 false).submits = 1 ∧
      (handleVehicleSelectionForSignedInUser e2
          (handleVehicleSelectionForSignedInUser e1 false).vehicleAdded).submits = 0 ∧
      (handleVehicleSelectionForSignedInUser e2
          (handleVehicleSelectionForSignedInUser e1 false).vehicleAdded).vehicleAdded = true := by
  have h1 := signedIn_first_call e1 haff hok
  rw [h1]
  exact ⟨rfl, rfl, (signedIn_second_call e2).1, (signedIn_second_call e2).2⟩

/-- Witness for C3 at the all-good environment. -/
theorem claim_C3_register_once_witness :
    (handleVehicleSelectionForSignedInUser demoEnv false).vehicleAdded = true ∧
      (handleVehicleSelectionForSignedInUser demoEnv false).submits = 1 ∧
      (handleVehicleSelectionForSignedInUser demoEnv
          (handleVehicleSelectionForSignedInUser demoEnv false).vehicleAdded).submits = 0 := by
  have h := claim_C3_register_once demoEnv demoEnv rfl rfl
  exact ⟨h.1, h.2.1, h.2.2.1⟩

/-- With the sold-out indicator present and the add-to-cart button visible,
addToCart throws the sold-out error. -/
theorem addToCart_soldOut (e : RunEnv) (h : e.soldOut = true)
    (hv : e.addToCartBtnVisible = true) :
    addToCart e = Except.error BotError.soldOut := by
  simp [addToCart, waitForElementVisible, hv, h]

/-- With the sold-out indicator present, addToCart never succeeds. -/
theorem addToCart_not_ok (e : RunEnv) (h : e.soldOut = true) :
    ∀ u, addToCart e ≠ Except.ok u := by
  intro u
  by_cases hv : e.addToCartBtnVisible = true
  · simp [addToCart, waitForElementVisible, hv, h]
  · have hv2 : e.addToCartBtnVisible = false := by simpa using hv
    simp [addToCart, waitForElementVisible, hv2]

/-- When addToCart cannot succeed, the signed-in booking tail always ends in
an error. -/
theorem sbAfterVehicle_fails (e : RunEnv) (v : StageOut)
    (h : ∀ u, addToCart e ≠ Except.ok u) : (sbAfterVehicle e v).err ≠ none := by
  unfold sbAfterVehicle
  cases hv : v.err with
  | some er => simp [hv]
  | none =>
    cases hd : (selectDateFromNewPicker e.dateEnv).err with
    | some er => simp
    | none =>
      cases hc : addToCart e with
      | error er => simp
      | ok u => exact absurd hc (h u)

/-- Claim C2: in every run with the sold-out indicator present for the
selected date/pass combination, the cart-add operation raises (the sold-out
error when the button is visible) and the checkout stage is never executed. -/
theorem claim_C2_soldout_no_checkout (e : RunEnv) (h : e.soldOut = true) :
    (e.addToCartBtnVisible = true → addToCart e = Except.error BotError.soldOut) ∧
      Stage.checkout ∉ (bookParkingPass e).trace := by
  refine ⟨fun hv => addToCart_soldOut e h hv, ?_⟩
  have hno : ∀ u, addToCart e ≠ Except.ok u := addToCart_not_ok e h
  obtain ⟨er0, her0⟩ : ∃ er0, addToCart e = Except.error er0 := by
    cases hc : addToCart e with
    | error er => exact ⟨er, rfl⟩
    | ok u => exact absurd hc (hno u)
  have hsb : (handleSignedInBooking e false).err ≠ none :=
    sbAfterVehicle_fails e _ hno
  obtain ⟨er1, her1⟩ : ∃ er1, (handleSignedInBooking e false).err = some er1 := by
    cases hs : (handleSignedInBooking e false).err with
    | none => exact absurd hs hsb
    | some er => exact ⟨er, rfl⟩
  unfold bookParkingPass
  rw [her1, her0]
  repeat' split
  all_goals simp_all

/-- Witness for C2: the all-good environment with the pass sold out. -/
theorem claim_C2_soldout_no_checkout_witness :
    demoSoldOutEnv.soldOut = true ∧
      addToCart demoSoldOutEnv = Except.error BotError.soldOut ∧
      Stage.checkout ∉ (bookParkingPass demoSoldOutEnv).trace := by
  have h := claim_C2_soldout_no_checkout demoSoldOutEnv rfl
  exact ⟨rfl, h.1 rfl, h.2⟩

/-- Counterexample for C4: with the model "Civic" and the vehicle list
["Honda Civic LX", "Civic"], the code (whose first tier is the XPath
contains(text(), model) substring lookup) selects "Honda Civic LX", while the
claimed first tier (first exact case-sensitive match) would select "Civic". -/
theorem claim_C4_counterexample :
    selectVehicle "Civic" ["Honda Civic LX", "Civic"] = Except.ok "Honda Civic LX" ∧
      selectVehicleClaimed "Civic" ["Honda Civic LX", "Civic"] = Except.ok "Civic" ∧
      ("Honda Civic LX" : String) ≠ "Civic" :=
  ⟨rfl, rfl, by decide⟩

/-- Claim C4 (amended): vehicle-list selection tries, in order, the first
case-sensitive substring match of the model, else the first case-insensitive
substring match, else the first entry that is neither empty nor one of the
placeholder ("Select...") and add-new ("Add a Vehicle") sentinels; if no entry
qualifies at all, the operation fails fatally. -/
theorem claim_C4_vehicle_tiers (model : String) (vehicles : List String) :
    (∀ i (h : i < vehicles.length),
        strContains (vehicles.get ⟨i, h⟩) model = true →
        (∀ j (hj : j < i), strContains (vehicles.get ⟨j, Nat.lt_trans hj h⟩) model = false) →
        selectVehicle model vehicles = Except.ok (vehicles.get ⟨i, h⟩)) ∧
      ((∀ t ∈ vehicles, strContains t model = false) →
        ∀ i (h : i < vehicles.length),
          strContains (vehicles.get ⟨i, h⟩).toLower model.toLower = true →
          (∀ j (hj : j < i),
            strContains (vehicles.get ⟨j, Nat.lt_trans hj h⟩).toLower model.toLower = false) →
          selectVehicle model vehicles = Except.ok (vehicles.get ⟨i, h⟩)) ∧
      ((∀ t ∈ vehicles, strContains t model = false) →
        (∀ t ∈ vehicles, strContains t.toLower model.toLower = false) →
        ∀ i (h : i < vehicles.length),
          isSentinelVehicle (vehicles.get ⟨i, h⟩) = false →
          (∀ j (hj : j < i), isSentinelVehicle (vehicles.get ⟨j, Nat.lt_trans hj h⟩) = true) →
          selectVehicle model vehicles = Except.ok (vehicles.get ⟨i, h⟩)) ∧
      ((∀ t ∈ vehicles, strContains t model = false) →
        (∀ t ∈ vehicles, strContains t.toLower model.toLower = false) →
        (∀ t ∈ vehicles, isSentinelVehicle t = true) →
        selectVehicle model vehicles = Except.error BotError.noSuitableVehicle) := by
  refine ⟨?_, ?_, ?_, ?_⟩
  · intro i h hp hall
    have hf := find?_eq_of_first (fun t => strContains t model) vehicles i h hp hall
    simp [selectVehicle, hf]
  · intro h1 i h hp hall
    have hn1 := find?_none_of_all (fun t => strContains t model) vehicles h1
    have hf := find?_eq_of_first (fun t => strContains t.toLower model.toLower) vehicles i h
      hp hall
    simp [selectVehicle, hn1, hf]
  · intro h1 h2 i h hp hall
    have hn1 := find?_none_of_all (fun t => strContains t model) vehicles h1
    have hn2 := find?_none_of_all (fun t => strContains t.toLower model.toLower) vehicles h2
    have hf := find?_eq_of_first (fun t => !isSentinelVehicle t) vehicles i h
      (by rw [Bool.not_eq_true']; exact hp)
      (fun j hj => by rw [Bool.not_eq_false']; exact hall j hj)
    simp [selectVehicle, hn1, hn2, hf]
  · intro h1 h2 h3
    have hn1 := find?_none_of_all (fun t => strContains t model) vehicles h1
    have hn2 := find?_none_of_all (fun t => strContains t.toLower model.toLower) vehicles h2
    have hn3 := find?_none_of_all (fun t => !isSentinelVehicle t) vehicles
      (fun t ht => by simp [h3 t ht])
    simp [selectVehicle, hn1, hn2, hn3]

/-- Witness for C4 (amended) at a first-tier substring match. -/
theorem claim_C4_vehicle_tiers_witness :
    selectVehicle "Civic" ["Toyota Civic"] = Except.ok "Toyota Civic" := by
  have h := (claim_C4_vehicle_tiers "Civic" ["Toyota Civic"]).1 0 (by decide) (by decide)
    (fun j hj => absurd hj (Nat.not_lt_zero j))
  exact h

/-- Claim C6: pass-type selection clicks the first candidate card whose text
contains the literal substrings of the requested type; with no matching card
and a nonempty candidate list, the first candidate is selected as a logged
fallback rather than an error (only an empty candidate list throws); and in
the scenario with cards "Half-day Pass" and "All Day Pass" and requested type
half_day, the "Half-day Pass" card is selected. -/
theorem claim_C6_pass_type (passType : String) (cards : List String) :
    (∀ i (h : i < cards.length),
        cardMatchesPassType passType (cards.get ⟨i, h⟩) = true →
        (∀ j (hj : j < i),
          cardMatchesPassType passType (cards.get ⟨j, Nat.lt_trans hj h⟩) = false) →
        selectPassType passType cards = Except.ok (cards.get ⟨i, h⟩, false)) ∧
      ((∀ t ∈ cards, cardMatchesPassType passType t = false) →
        ∀ t rest, cards = t :: rest → selectPassType passType cards = Except.ok (t, true)) ∧
      (cards = [] → selectPassType passType cards = Except.error BotError.noPassCards) ∧
      selectPassType "half_day" ["Half-day Pass", "All Day Pass"] =
        Except.ok ("Half-day Pass", false) := by
  refine ⟨?_, ?_, ?_, rfl⟩
  · intro i h hp hall
    have hf := find?_eq_of_first (cardMatchesPassType passType) cards i h hp hall
    simp [selectPassType, hf]
  · intro hnone t rest hcards
    have hn := find?_none_of_all (cardMatchesPassType passType) cards hnone
    subst hcards
    simp [selectPassType, hn]
  · intro hnil
    subst hnil
    simp [selectPassType]

/-- Witness for C6 at a matching card. -/
theorem claim_C6_pass_type_witness :
    selectPassType "all_day" ["All Day Pass"] = Except.ok ("All Day Pass", false) := by
  have h := (claim_C6_pass_type "all_day" ["All Day Pass"]).1 0 (by decide) (by decide)
    (fun j hj => absurd hj (Nat.not_lt_zero j))
  exact h

/-- A digit character is not the slash. -/
theorem digit_ne_slash {a : Char} (h : a.isDigit = true) : (a == '/') = false := by
  cases hb : (a == '/') with
  | false => rfl
  | true =>
    have ha : a = '/' := eq_of_beq hb
    rw [ha] at h
    exact absurd h (by decide)

/-- Splitting a dd/dd character list on the slash yields the two components. -/
theorem splitOnSlash_mmdd (a b c d : Char) (ha : (a == '/') = false) (hb : (b == '/') = false)
    (hc : (c == '/') = false) (hd : (d == '/') = false) :
    splitOnSlashAux [a, b, '/', c, d] [] = [[a, b], [c, d]] := by
  simp [splitOnSlashAux, ha, hb, hc, hd]

/-- The day component of a MM/DD string made of digits. -/
theorem dayOfMMDD_digits (a b c d : Char) (ha : a.isDigit = true) (hb : b.isDigit = true)
    (hc : c.isDigit = true) (hd : d.isDigit = true) :
    dayOfMMDD (String.mk [a, b, '/', c, d]) = String.mk [c, d] := by
  unfold dayOfMMDD
  rw [show (String.mk [a, b, '/', c, d]).data = [a, b, '/', c, d] from rfl]
  rw [splitOnSlash_mmdd a b c d (digit_ne_slash ha) (digit_ne_slash hb)
    (digit_ne_slash hc) (digit_ne_slash hd)]
  rfl

/-- preferredDay for a digit MM/DD input is the day component. -/
theorem preferredDayOf_mmdd (a b c d : Char) (ha : a.isDigit = true) (hb : b.isDigit = true)
    (hc : c.isDigit = true) (hd : d.isDigit = true) :
    preferredDayOf (String.mk [a, b, '/', c, d]) = some (String.mk [c, d]) := by
  have hm : isMMDD (String.mk [a, b, '/', c, d]) = true := by
    simp [isMMDD, ha, hb, hc, hd]
  simp [preferredDayOf, hm, dayOfMMDD_digits a b c d ha hb hc hd]

/-- Counterexample for C5: with no preferred date configured and a date button
present, the code clicks the first date button but logs no warning (only
informational messages), while the claim requires a warning to be logged in
the no-target case. -/
theorem claim_C5_counterexample :
    (selectDateFromNewPicker ⟨true, "", ["17"], [], none⟩).clicked = some "17" ∧
      (selectDateFromNewPicker ⟨true, "", ["17"], [], none⟩).dateSelected = true ∧
      (selectDateFromNewPicker ⟨true, "", ["17"], [], none⟩).warnings = [] :=
  ⟨rfl, rfl, rfl⟩

/-- Claim C5 (amended): a MM/DD preferred date has its day component
extracted ("08/17" yields "17") and a bare 1-2 digit string is used directly;
the first date button whose trimmed text equals the day is clicked; a matching
already-active date button means no click and a satisfied stage; when the
given target does not match, the first available date button is clicked and a
warning is logged; when no target is given, the first available date button is
clicked without any warning; absence of any date button yields a warning and
the stage completes without raising; only absence of the scheduler container
itself raises. -/
theorem claim_C5_date_selection (env : DateEnv) :
    preferredDayOf "08/17" = some "17" ∧
      (∀ a b c d : Char, a.isDigit = true → b.isDigit = true → c.isDigit = true →
        d.isDigit = true →
        preferredDayOf (String.mk [a, b, '/', c, d]) = some (String.mk [c, d])) ∧
      (∀ s, isBareDay s = true → preferredDayOf s = some s) ∧
      (env.schedulerVisible = true → ∀ day, env.preferredDate ≠ "" →
        preferredDayOf env.preferredDate = some day → env.activeDate = some day →
        (selectDateFromNewPicker env).clicked = none ∧
          (selectDateFromNewPicker env).dateSelected = true ∧
          (selectDateFromNewPicker env).err = none) ∧
      (env.schedulerVisible = true → ∀ day t, env.preferredDate ≠ "" →
        preferredDayOf env.preferredDate = some day → env.activeDate ≠ some day →
        List.find? (fun x => x == day) (effectiveDateButtons env) = some t →
        (selectDateFromNewPicker env).clicked = some t ∧
          (selectDateFromNewPicker env).dateSelected = true ∧
          (selectDateFromNewPicker env).err = none) ∧
      (env.schedulerVisible = true → env.preferredDate = "" → ∀ t,
        firstAvailableDate env = some t →
        selectDateFromNewPicker env =
          { clicked := some t, dateSelected := true, warnings := [], err := none }) ∧
      (env.schedulerVisible = true → ∀ day, env.preferredDate ≠ "" →
        preferredDayOf env.preferredDate = some day → env.activeDate ≠ some day →
        List.find? (fun x => x == day) (effectiveDateButtons env) = none → ∀ t,
        firstAvailableDate env = some t →
        (selectDateFromNewPicker env).clicked = some t ∧
          (selectDateFromNewPicker env).dateSelected = true ∧
          wPreferredNotAvailable ∈ (selectDateFromNewPicker env).warnings ∧
          (selectDateFromNewPicker env).err = none) ∧
      (env.schedulerVisible = true → env.dateButtons = [] → env.altDateButtons = [] →
        env.activeDate = none →
        (selectDateFromNewPicker env).clicked = none ∧
          (selectDateFromNewPicker env).dateSelected = false ∧
          wNoDateSelected ∈ (selectDateFromNewPicker env).warnings ∧
          (selectDateFromNewPicker env).err = none) ∧
      (env.schedulerVisible = false →
        (selectDateFromNewPicker env).err =
          some (BotError.elementNotVisible schedulerDateMainSelector)) := by
  refine ⟨rfl, preferredDayOf_mmdd, ?_, ?_, ?_, ?_, ?_, ?_, ?_⟩
  · intro s hs
    have hm : isMMDD s = false ∨ isMMDD s = true := by
      cases isMMDD s with
      | false => exact Or.inl rfl
      | true => exact Or.inr rfl
    rcases hm with hm | hm
    · simp [preferredDayOf, hm, hs]
    · exfalso
      unfold isMMDD at hm
      unfold isBareDay at hs
      cases hdata : s.data with
      | nil => rw [hdata] at hm; simp at hm
      | cons x xs =>
        rw [hdata] at hm hs
        rcases xs with _ | ⟨x2, xs2⟩
        · simp at hm
        · rcases xs2 with _ | ⟨x3, xs3⟩
          · simp at hm
          · simp at hs
  · intro hsch day hne hday hact
    have hbe : (env.preferredDate == "") = false := beq_eq_false_iff_ne.mpr hne
    have hba : (env.activeDate == some day) = true := beq_iff_eq.mpr hact
    simp [selectDateFromNewPicker, datePdPhase, hsch, hbe, hday, hba]
  · intro hsch day t hne hday hact hfind
    have hbe : (env.preferredDate == "") = false := beq_eq_false_iff_ne.mpr hne
    have hba : (env.activeDate == some day) = false := beq_eq_false_iff_ne.mpr hact
    simp [selectDateFromNewPicker, datePdPhase, hsch, hbe, hday, hba, hfind]
  · intro hsch hpd t hfa
    simp [selectDateFromNewPicker, hsch, hpd, hfa]
  · intro hsch day hne hday hact hfind t hfa
    have hbe : (env.preferredDate == "") = false := beq_eq_false_iff_ne.mpr hne
    have hba : (env.activeDate == some day) = false := beq_eq_false_iff_ne.mpr hact
    simp [selectDateFromNewPicker, datePdPhase, hsch, hbe, hday, hba, hfind, hfa]
  · intro hsch hdb halt hanone
    have hfa : firstAvailableDate env = none := by simp [firstAvailableDate, hdb, halt]
    by_cases hpd : env.preferredDate = ""
    · simp [selectDateFromNewPicker, hsch, hpd, hfa]
    · have hbe : (env.preferredDate == "") = false := beq_eq_false_iff_ne.mpr hpd
      cases hday : preferredDayOf env.preferredDate with
      | none =>
        simp [selectDateFromNewPicker, datePdPhase, hsch, hbe, hday, hfa, hdb]
      | some day =>
        have hba : (env.activeDate == some day) = false := by rw [hanone]; rfl
        have hfind : List.find? (fun x => x == day) (effectiveDateButtons env) = none := by
          simp [effectiveDateButtons, hdb, halt]
        simp [selectDateFromNewPicker, datePdPhase, hsch, hbe, hday, hba, hfind, hfa, hdb]
  · intro hsch
    simp [selectDateFromNewPicker, hsch]

/-- Witness for C5 (amended) at a concrete environment: preferred date 08/17,
active date 16, buttons 16 and 17, so the button with text 17 is clicked. -/
theorem claim_C5_date_selection_witness :
    (selectDateFromNewPicker ⟨true, "08/17", ["16", "17"], [], some "16"⟩).clicked =
        some "17" ∧
      (selectDateFromNewPicker ⟨true, "08/17", ["16", "17"], [], some "16"⟩).dateSelected =
        true := by
  have h := (claim_C5_date_selection
      ⟨true, "08/17", ["16", "17"], [], some "16"⟩).2.2.2.2.1 rfl "17" "17"
    (by decide) (by decide) (by decide) (by decide)
  exact ⟨h.1, h.2.1⟩

end BuntzenBot
